import Mathlib

/-!
Verification of the DVWTP browser-side physics model
(`src/services/mockSimulation.ts`, shipped concatenated in `scripts/run.sh`)
and the cold-start defaults of `src/services/api.ts` and `src/App.tsx`.

The TypeScript numbers are modelled as exact rationals (`ℚ`).  Every call of
the `Math.random()`-driven sensor jitter is modelled by an explicit `Noise`
record whose components range over the interval the code draws from
(`(Math.random() - 0.5) * mag` gives `[-mag/2, mag/2)`), and the
`Math.sin(Date.now() / 10000)` factor of the TDS baseline is an explicit
parameter `tdsSin ∈ [-1, 1]`.  Jitter and clock never feed back into the
integrated state, so the state transition itself is deterministic.
-/

/-- Record of the actuated inputs, `SimulationControls` from `src/types.ts`. -/
structure SimulationControls where
  wellfield_on : Bool
  ro_feed_pump_on : Bool
  dist_pump_on : Bool
  valve_101_open : Bool
  valve_201_open : Bool
  valve_202_open : Bool
  valve_203_open : Bool
  valve_401_open : Bool
  naoh_pump_on : Bool
  cl_pump_on : Bool
  NaOH_dose : ℚ
  Cl_dose : ℚ
  Q_out_sp : ℚ

/-- Record of the module-level mutable `physicsState` of `mockSimulation.ts`
(integrated quantities plus persistent equipment health). -/
structure PhysicsState where
  Q_wellfield : ℚ
  Q_feed : ℚ
  Q_out : ℚ
  level_feed_tank : ℚ
  level_clearwell : ℚ
  pressure_well : ℚ
  pressure_feed : ℚ
  pressure_dist : ℚ
  TDS_feed : ℚ
  pH_true : ℚ
  Cl_true : ℚ
  H2S_feed : ℚ
  membrane_health : ℚ
  pump_well_health : ℚ
  pump_feed_health : ℚ
  pump_dist_health : ℚ
  pipe_well_health : ℚ
  pipe_feed_health : ℚ
  pipe_dist_health : ℚ

/-- Record of the published sensor snapshot, `SimulationState` from
`src/types.ts`. -/
structure SimulationState where
  Q_wellfield : ℚ
  Q_feed : ℚ
  Q_perm : ℚ
  Q_brine : ℚ
  Q_out : ℚ
  level_feed_tank : ℚ
  level_clearwell : ℚ
  V_clearwell : ℚ
  TDS_feed : ℚ
  TDS_perm : ℚ
  pH_true : ℚ
  Cl_true : ℚ
  H2S_feed : ℚ
  H2S_out : ℚ
  pressure_well : ℚ
  dP_ro_true : ℚ
  pressure_feed : ℚ
  pressure_dist : ℚ
  membrane_health : ℚ
  pump_well_health : ℚ
  pump_feed_health : ℚ
  pump_dist_health : ℚ
  pipe_well_health : ℚ
  pipe_feed_health : ℚ
  pipe_dist_health : ℚ

/-- Record of one realisation of the sensor jitter drawn inside the return
block of `simulatePhysics`: each field is the value of one `noise(mag)`
call. -/
structure Noise where
  nQw : ℚ
  nQf : ℚ
  nQp : ℚ
  nQb : ℚ
  nQo : ℚ
  nTDSf : ℚ
  nTDSp : ℚ
  npH : ℚ
  nCl : ℚ
  nPw : ℚ
  ndP : ℚ
  nPf : ℚ
  nPd : ℚ

/-- Predicate saying every jitter component lies in the interval its
`noise(mag) = (Math.random() - 0.5) * mag` call draws from, namely
`[-mag/2, mag/2)`. -/
def noiseBounded (nz : Noise) : Prop :=
  (-1 ≤ nz.nQw ∧ nz.nQw < 1) ∧ (-1 ≤ nz.nQf ∧ nz.nQf < 1) ∧
  (-(1/2) ≤ nz.nQp ∧ nz.nQp < 1/2) ∧ (-(1/2) ≤ nz.nQb ∧ nz.nQb < 1/2) ∧
  (-(1/2) ≤ nz.nQo ∧ nz.nQo < 1/2) ∧
  (-(5/2) ≤ nz.nTDSf ∧ nz.nTDSf < 5/2) ∧ (-1 ≤ nz.nTDSp ∧ nz.nTDSp < 1) ∧
  (-(1/40) ≤ nz.npH ∧ nz.npH < 1/40) ∧
  (-(1/200) ≤ nz.nCl ∧ nz.nCl < 1/200) ∧
  (-(1/20) ≤ nz.nPw ∧ nz.nPw < 1/20) ∧
  (-(1/100) ≤ nz.ndP ∧ nz.ndP < 1/100) ∧
  (-(1/20) ≤ nz.nPf ∧ nz.nPf < 1/20) ∧
  (-(1/20) ≤ nz.nPd ∧ nz.nPd < 1/20)

/-- Jitter realisation with every component zero. -/
def zeroNoise : Noise :=
  ⟨0, 0, 0, 0, 0, 0, 0, 0, 0, 0, 0, 0, 0⟩

-- Physics constants of `mockSimulation.ts`.
def TANK_AREA_FEED : ℚ := 10
def TANK_AREA_CLEARWELL : ℚ := 40
def WELL_FLOW_RATE : ℚ := 110
def RO_FEED_RATE : ℚ := 100
def DIST_PUMP_CAPACITY : ℚ := 120
def RAMP_RATE : ℚ := 1/10
def MAX_FEED_PRESSURE : ℚ := 15
def MEMBRANE_CHLORINE_LIMIT : ℚ := 1/10

/-- Cold-start physics state: the initialiser of `physicsState` in
`mockSimulation.ts`. -/
def initialPhysicsState : PhysicsState where
  Q_wellfield := 0
  Q_feed := 0
  Q_out := 0
  level_feed_tank := 5/2
  level_clearwell := 3
  pressure_well := 0
  pressure_feed := 0
  pressure_dist := 0
  TDS_feed := 1250
  pH_true := 36/5
  Cl_true := 0
  H2S_feed := 5/2
  membrane_health := 100
  pump_well_health := 100
  pump_feed_health := 100
  pump_dist_health := 100
  pipe_well_health := 100
  pipe_feed_health := 100
  pipe_dist_health := 100

/-- One damage debit as the code writes it:
`h = Math.max(0, h - rate * dt)`, guarded by its condition. -/
def damageStep (h rate dt : ℚ) (cond : Prop) [Decidable cond] : ℚ :=
  if cond then max 0 (h - rate * dt) else h

/-- Model of `resetDamage` from `mockSimulation.ts`: restores the seven
health variables to `100.0` and touches nothing else. -/
def resetDamage (ps : PhysicsState) : PhysicsState :=
  { ps with
    membrane_health := 100
    pump_well_health := 100
    pump_feed_health := 100
    pump_dist_health := 100
    pipe_well_health := 100
    pipe_feed_health := 100
    pipe_dist_health := 100 }

/-- Result of one call of `simulatePhysics`: the mutated module state plus
the returned snapshot. -/
structure TickResult where
  state : PhysicsState
  snap : SimulationState

/-- Model of `simulatePhysics(controls, dt_seconds)` from
`mockSimulation.ts`, translated statement by statement.  `nz` supplies the
values of the `noise(mag)` calls of the return block and `tdsSin` the value
of `Math.sin(Date.now() / 10000)`. -/
def simulatePhysics (ps : PhysicsState) (c : SimulationControls)
    (dt_seconds : ℚ) (nz : Noise) (tdsSin : ℚ) : TickResult :=
  -- 1. Determine Logic Targets: wellfield with pressure logic
  let target_Q_well : ℚ :=
    if c.wellfield_on then (if c.valve_101_open then WELL_FLOW_RATE else 0) else 0
  let target_P_well : ℚ :=
    if c.wellfield_on then (if c.valve_101_open then 3 else 12) else 0
  -- feed pump logic with cavitation check (`suction_head_ok` is
  -- `level_feed_tank > 0.2` and `discharge_path_open` is `valve_201_open`,
  -- both inlined at each use)
  -- P-201 cavitation damage
  let pump_feed_health1 :=
    damageStep ps.pump_feed_health (5/10) dt_seconds
      (c.ro_feed_pump_on ∧ ¬(ps.level_feed_tank > 1/5))
  -- P-101 deadhead damage
  let pump_well_health1 :=
    damageStep ps.pump_well_health (3/10) dt_seconds
      (c.wellfield_on ∧ ¬c.valve_101_open)
  -- P-401 cavitation and deadhead damage
  let pump_dist_health1 :=
    damageStep ps.pump_dist_health (5/10) dt_seconds
      (c.dist_pump_on ∧ ps.level_clearwell < 1/5)
  let pump_dist_health2 :=
    damageStep pump_dist_health1 (3/10) dt_seconds
      (c.dist_pump_on ∧ ¬c.valve_401_open)
  let pump_efficiency := pump_feed_health1 / 100
  -- RO system logic
  let target_Q_feed : ℚ :=
    if c.ro_feed_pump_on ∧ ps.level_feed_tank > 1/5 then
      (if c.valve_201_open then
        (if c.valve_202_open ∧ c.valve_203_open then
          RO_FEED_RATE * pump_efficiency else 0)
      else 0)
    else 0
  let target_P_feed : ℚ :=
    if c.ro_feed_pump_on ∧ ps.level_feed_tank > 1/5 then
      (if c.valve_201_open then
        (if c.valve_202_open ∧ c.valve_203_open then 12
         else MAX_FEED_PRESSURE * 2)
      else MAX_FEED_PRESSURE * (22/10))
    else 0
  -- distribution with pressure logic
  let target_Q_dist : ℚ :=
    if c.dist_pump_on ∧ ps.level_clearwell > 1/10 then
      (if c.valve_401_open then min c.Q_out_sp DIST_PUMP_CAPACITY else 0)
    else 0
  let target_P_dist : ℚ :=
    if c.dist_pump_on ∧ ps.level_clearwell > 1/10 then
      (if c.valve_401_open then 4 else 15)
    else 0
  -- 2. Apply Physics Ramps (Inertia)
  let Q_wellfield1 := ps.Q_wellfield + (target_Q_well - ps.Q_wellfield) * RAMP_RATE
  let Q_feed1 := ps.Q_feed + (target_Q_feed - ps.Q_feed) * RAMP_RATE
  let Q_out1 := ps.Q_out + (target_Q_dist - ps.Q_out) * RAMP_RATE
  -- pressure responds faster than flow
  let pressure_well1 := ps.pressure_well + (target_P_well - ps.pressure_well) * (1/2)
  let pressure_feed1 := ps.pressure_feed + (target_P_feed - ps.pressure_feed) * (1/2)
  let pressure_dist1 := ps.pressure_dist + (target_P_dist - ps.pressure_dist) * (1/2)
  -- pipe damage from overpressure
  let pipe_well_health1 :=
    damageStep ps.pipe_well_health (2/10) dt_seconds (pressure_well1 > 10)
  let pipe_feed_health1 :=
    damageStep ps.pipe_feed_health (5/10) dt_seconds (pressure_feed1 > 20)
  let pipe_dist_health1 :=
    damageStep ps.pipe_dist_health (3/10) dt_seconds (pressure_dist1 > 12)
  -- 3. Chemistry & Damage Logic: chlorine calculation
  let current_Cl : ℚ :=
    if c.cl_pump_on then
      (if Q_feed1 > 5 then max 0 (c.Cl_dose * (9/10))
       else if c.Cl_dose > 0 then 50 else 0)
    else 0
  let Cl_true1 := ps.Cl_true + (current_Cl - ps.Cl_true) * (1/10)
  -- membrane damage logic (irreversible)
  let membrane_health1 :=
    damageStep ps.membrane_health (2/10) dt_seconds
      (Cl_true1 > MEMBRANE_CHLORINE_LIMIT ∧ Q_feed1 > 0)
  let membrane_health2 :=
    damageStep membrane_health1 1 dt_seconds (pressure_feed1 > 20)
  -- pH calculation
  let pH_adjustment : ℚ := if c.naoh_pump_on then c.NaOH_dose * (15/100) else 0
  let rejection_rate := (98/100) * (membrane_health2 / 100)
  let ro_recovery : ℚ := 75/100
  -- 4. Mass Balance (Level Integration): feed tank
  let dV_feed := (Q_wellfield1 - Q_feed1) * (dt_seconds / 3600)
  let level_feed_a := ps.level_feed_tank + dV_feed / TANK_AREA_FEED
  let level_feed_b := if level_feed_a > 5 then 5 else level_feed_a
  let level_feed_c := if level_feed_b < 0 then 0 else level_feed_b
  -- clearwell
  let Q_perm_actual := Q_feed1 * ro_recovery
  let dV_clear := (Q_perm_actual - Q_out1) * (dt_seconds / 3600)
  let level_clear_a := ps.level_clearwell + dV_clear / TANK_AREA_CLEARWELL
  let level_clear_b := if level_clear_a > 6 then 6 else level_clear_a
  let level_clear_c := if level_clear_b < 0 then 0 else level_clear_b
  -- 5. Derived Values
  let TDS_feed_v : ℚ := 1250 + tdsSin * 20
  let TDS_perm_v := TDS_feed_v * (1 - rejection_rate)
  let pH_true_v := 7 + pH_adjustment
  let dP_ro : ℚ :=
    if Q_feed1 > 1 then
      (1/2 + (Q_feed1 / RO_FEED_RATE) * (3/2)) *
        (if membrane_health2 < 30 then 2/10 else 1)
    else 0
  { state :=
      { Q_wellfield := Q_wellfield1
        Q_feed := Q_feed1
        Q_out := Q_out1
        level_feed_tank := level_feed_c
        level_clearwell := level_clear_c
        pressure_well := pressure_well1
        pressure_feed := pressure_feed1
        pressure_dist := pressure_dist1
        TDS_feed := ps.TDS_feed
        pH_true := ps.pH_true
        Cl_true := Cl_true1
        H2S_feed := ps.H2S_feed
        membrane_health := membrane_health2
        pump_well_health := pump_well_health1
        pump_feed_health := pump_feed_health1
        pump_dist_health := pump_dist_health2
        pipe_well_health := pipe_well_health1
        pipe_feed_health := pipe_feed_health1
        pipe_dist_health := pipe_dist_health1 }
    snap :=
      { Q_wellfield := if Q_wellfield1 > 1 then Q_wellfield1 + nz.nQw else 0
        Q_feed := if Q_feed1 > 1 then Q_feed1 + nz.nQf else 0
        Q_perm := if Q_perm_actual > 1/10 then Q_perm_actual + nz.nQp else 0
        Q_brine :=
          if Q_feed1 - Q_perm_actual > 1/10 then
            (Q_feed1 - Q_perm_actual) + nz.nQb else 0
        Q_out := if Q_out1 > 1 then Q_out1 + nz.nQo else 0
        level_feed_tank := level_feed_c
        level_clearwell := level_clear_c
        V_clearwell := level_clear_c * TANK_AREA_CLEARWELL
        TDS_feed := TDS_feed_v + nz.nTDSf
        TDS_perm := TDS_perm_v + nz.nTDSp
        pH_true := pH_true_v + nz.npH
        Cl_true := if Cl_true1 > 5/100 then Cl_true1 + nz.nCl else 0
        H2S_feed := 5/2
        H2S_out := 0
        pressure_well := pressure_well1 + nz.nPw
        dP_ro_true := dP_ro + nz.ndP
        pressure_feed := pressure_feed1 + nz.nPf
        pressure_dist := pressure_dist1 + nz.nPd
        membrane_health := membrane_health2
        pump_well_health := pump_well_health1
        pump_feed_health := pump_feed_health1
        pump_dist_health := pump_dist_health2
        pipe_well_health := pipe_well_health1
        pipe_feed_health := pipe_feed_health1
        pipe_dist_health := pipe_dist_health1 } }

/-- Predicate saying all seven health variables lie in `[0, 100]`. -/
def healthsInRange (ps : PhysicsState) : Prop :=
  (0 ≤ ps.membrane_health ∧ ps.membrane_health ≤ 100) ∧
  (0 ≤ ps.pump_well_health ∧ ps.pump_well_health ≤ 100) ∧
  (0 ≤ ps.pump_feed_health ∧ ps.pump_feed_health ≤ 100) ∧
  (0 ≤ ps.pump_dist_health ∧ ps.pump_dist_health ≤ 100) ∧
  (0 ≤ ps.pipe_well_health ∧ ps.pipe_well_health ≤ 100) ∧
  (0 ≤ ps.pipe_feed_health ∧ ps.pipe_feed_health ≤ 100) ∧
  (0 ≤ ps.pipe_dist_health ∧ ps.pipe_dist_health ≤ 100)

/-- Predicate saying every health variable of `a` is at most the
corresponding one of `b`. -/
def healthsLe (a b : PhysicsState) : Prop :=
  a.membrane_health ≤ b.membrane_health ∧
  a.pump_well_health ≤ b.pump_well_health ∧
  a.pump_feed_health ≤ b.pump_feed_health ∧
  a.pump_dist_health ≤ b.pump_dist_health ∧
  a.pipe_well_health ≤ b.pipe_well_health ∧
  a.pipe_feed_health ≤ b.pipe_feed_health ∧
  a.pipe_dist_health ≤ b.pipe_dist_health

/-- Consecutive calls of `simulatePhysics`, fed the state each call mutates;
one list entry per tick: `(controls, dt, jitter, tdsSin)`. -/
def runTicks : PhysicsState → List (SimulationControls × ℚ × Noise × ℚ) → PhysicsState
  | ps, [] => ps
  | ps, i :: rest => runTicks (simulatePhysics ps i.1 i.2.1 i.2.2.1 i.2.2.2).state rest

/-- Debit rule written from the spec's damage table (section 4.3.3): health
decrements by `rate · dt`, floored at 0, when its condition holds. -/
def spec_healthDebit (h rate dt : ℚ) (cond : Prop) [Decidable cond] : ℚ :=
  if cond then max 0 (h - rate * dt) else h

/-- Four-case `(target_Q_feed, target_P_feed)` pair written from the spec's
RO feed rule (section 4.3.1), with `suction_ok = level_feed_tank > 0.2` and
`η = pump_feed_health / 100`. -/
def spec_roFeedTarget (ps : PhysicsState) (c : SimulationControls) : ℚ × ℚ :=
  if c.ro_feed_pump_on ∧ ps.level_feed_tank > 1/5 ∧ c.valve_201_open ∧
      c.valve_202_open ∧ c.valve_203_open then
    (100 * (ps.pump_feed_health / 100), 12)
  else if c.ro_feed_pump_on ∧ ps.level_feed_tank > 1/5 ∧ c.valve_201_open ∧
      ¬(c.valve_202_open ∧ c.valve_203_open) then
    (0, 30)
  else if c.ro_feed_pump_on ∧ ps.level_feed_tank > 1/5 ∧ ¬c.valve_201_open then
    (0, 33)
  else
    (0, 0)

/-- Chlorine source term written from the spec's chemistry rule
(section 4.3.4): `current_Cl` as a function of the controls and the
(post-ramp) feed flow `qf`. -/
def spec_currentCl (c : SimulationControls) (qf : ℚ) : ℚ :=
  if c.cl_pump_on ∧ qf > 5 then (9/10) * c.Cl_dose
  else if c.cl_pump_on ∧ qf ≤ 5 ∧ c.Cl_dose > 0 then 50
  else 0

/-- Scenario S1 controls: coils `{1:true, 4:true, 5:false, 6:false}` applied
on top of the `PlantApi` defaults (RO feed pump on, valve 201 open, valves
202/203 closed; remaining controls at their defaults). -/
def s1Controls : SimulationControls where
  wellfield_on := false
  ro_feed_pump_on := true
  dist_pump_on := false
  valve_101_open := true
  valve_201_open := true
  valve_202_open := false
  valve_203_open := false
  valve_401_open := true
  naoh_pump_on := false
  cl_pump_on := false
  NaOH_dose := 5
  Cl_dose := 1
  Q_out_sp := 80

/-- State after `n` ticks of scenario S1 at `dt = 0.1 s` from the default
initial state (jitter and clock do not influence the integrated state). -/
def s1Run : ℕ → PhysicsState
  | 0 => initialPhysicsState
  | n + 1 => (simulatePhysics (s1Run n) s1Controls (1/10) zeroNoise 0).state

/-- Defaults of `PlantApi.currentControls` from `src/services/api.ts`:
pumps off, the five valves default-open, doses `5.0 / 1.0 / 80.0`. -/
def currentControlsInit : SimulationControls where
  wellfield_on := false
  ro_feed_pump_on := false
  dist_pump_on := false
  valve_101_open := true
  valve_201_open := true
  valve_202_open := true
  valve_203_open := true
  valve_401_open := true
  naoh_pump_on := false
  cl_pump_on := false
  NaOH_dose := 5
  Cl_dose := 1
  Q_out_sp := 80

/-- Controls initialiser of the `useState<SimulationControls>` call in
`src/App.tsx` ("Default closed on init for safety until API connects"):
everything off, all five valves closed, all numeric setpoints 0. -/
def appInitialControls : SimulationControls where
  wellfield_on := false
  ro_feed_pump_on := false
  dist_pump_on := false
  valve_101_open := false
  valve_201_open := false
  valve_202_open := false
  valve_203_open := false
  valve_401_open := false
  naoh_pump_on := false
  cl_pump_on := false
  NaOH_dose := 0
  Cl_dose := 0
  Q_out_sp := 0

/-- Pre-tick state used by the mass-balance counterexample: default state
with an established feed flow of 50 m³/h. -/
def c4State : PhysicsState := { initialPhysicsState with Q_feed := 50 }

/-- Admissible jitter realisation used by the mass-balance counterexample:
`+0.9` on `Q_feed`, `-0.5` on `Q_perm` and on `Q_brine`. -/
def c4Noise : Noise := { zeroNoise with nQf := 9/10, nQp := -(1/2), nQb := -(1/2) }

/-- Controls used by the chlorine witness: chlorine dosing pump on at
`Cl_dose = 3 mg/L`, everything else off. -/
def c6Controls : SimulationControls :=
  { appInitialControls with cl_pump_on := true, Cl_dose := 3 }

/-- Admissible jitter realisation used by the positivity counterexample:
`-0.04` bar on `pressure_well`. -/
def c8Noise : Noise := { zeroNoise with nPw := -(1/25) }

/-! ### Basic facts about a single damage debit -/

lemma damageStep_nonneg {h rate dt : ℚ} {cond : Prop} [Decidable cond]
    (h0 : 0 ≤ h) : 0 ≤ damageStep h rate dt cond := by
  unfold damageStep
  split_ifs
  · exact le_max_left 0 _
  · exact h0

lemma damageStep_le {h rate dt : ℚ} {cond : Prop} [Decidable cond]
    (h0 : 0 ≤ h) (hr : 0 ≤ rate) (hdt : 0 ≤ dt) :
    damageStep h rate dt cond ≤ h := by
  unfold damageStep
  split_ifs
  · exact max_le h0 (by nlinarith)
  · exact le_rfl

/-! ### Field-level descriptions of one tick

Each lemma below is a definitional unfolding (`rfl`) of one field of the
`simulatePhysics` result. -/

lemma tick_state_pump_well_health (ps : PhysicsState) (c : SimulationControls)
    (dt : ℚ) (nz : Noise) (ts : ℚ) :
    (simulatePhysics ps c dt nz ts).state.pump_well_health =
      damageStep ps.pump_well_health (3/10) dt
        (c.wellfield_on ∧ ¬c.valve_101_open) := rfl

lemma tick_state_pump_feed_health (ps : PhysicsState) (c : SimulationControls)
    (dt : ℚ) (nz : Noise) (ts : ℚ) :
    (simulatePhysics ps c dt nz ts).state.pump_feed_health =
      damageStep ps.pump_feed_health (5/10) dt
        (c.ro_feed_pump_on ∧ ¬(ps.level_feed_tank > 1/5)) := rfl

lemma tick_state_pump_dist_health (ps : PhysicsState) (c : SimulationControls)
    (dt : ℚ) (nz : Noise) (ts : ℚ) :
    (simulatePhysics ps c dt nz ts).state.pump_dist_health =
      damageStep
        (damageStep ps.pump_dist_health (5/10) dt
          (c.dist_pump_on ∧ ps.level_clearwell < 1/5))
        (3/10) dt (c.dist_pump_on ∧ ¬c.valve_401_open) := rfl

lemma tick_state_pipe_well_health (ps : PhysicsState) (c : SimulationControls)
    (dt : ℚ) (nz : Noise) (ts : ℚ) :
    (simulatePhysics ps c dt nz ts).state.pipe_well_health =
      damageStep ps.pipe_well_health (2/10) dt
        ((simulatePhysics ps c dt nz ts).state.pressure_well > 10) := rfl

lemma tick_state_pipe_feed_health (ps : PhysicsState) (c : SimulationControls)
    (dt : ℚ) (nz : Noise) (ts : ℚ) :
    (simulatePhysics ps c dt nz ts).state.pipe_feed_health =
      damageStep ps.pipe_feed_health (5/10) dt
        ((simulatePhysics ps c dt nz ts).state.pressure_feed > 20) := rfl

lemma tick_state_pipe_dist_health (ps : PhysicsState) (c : SimulationControls)
    (dt : ℚ) (nz : Noise) (ts : ℚ) :
    (simulatePhysics ps c dt nz ts).state.pipe_dist_health =
      damageStep ps.pipe_dist_health (3/10) dt
        ((simulatePhysics ps c dt nz ts).state.pressure_dist > 12) := rfl

lemma tick_state_membrane_health (ps : PhysicsState) (c : SimulationControls)
    (dt : ℚ) (nz : Noise) (ts : ℚ) :
    (simulatePhysics ps c dt nz ts).state.membrane_health =
      damageStep
        (damageStep ps.membrane_health (2/10) dt
          ((simulatePhysics ps c dt nz ts).state.Cl_true > 1/10 ∧
           (simulatePhysics ps c dt nz ts).state.Q_feed > 0))
        1 dt ((simulatePhysics ps c dt nz ts).state.pressure_feed > 20) := rfl

lemma tick_state_Q_wellfield (ps : PhysicsState) (c : SimulationControls)
    (dt : ℚ) (nz : Noise) (ts : ℚ) :
    (simulatePhysics ps c dt nz ts).state.Q_wellfield =
      ps.Q_wellfield +
        ((if c.wellfield_on then (if c.valve_101_open then WELL_FLOW_RATE else 0) else 0)
          - ps.Q_wellfield) * RAMP_RATE := rfl

lemma tick_state_Q_feed (ps : PhysicsState) (c : SimulationControls)
    (dt : ℚ) (nz : Noise) (ts : ℚ) :
    (simulatePhysics ps c dt nz ts).state.Q_feed =
      ps.Q_feed +
        ((if c.ro_feed_pump_on ∧ ps.level_feed_tank > 1/5 then
            (if c.valve_201_open then
              (if c.valve_202_open ∧ c.valve_203_open then
                RO_FEED_RATE *
                  (damageStep ps.pump_feed_health (5/10) dt
                    (c.ro_feed_pump_on ∧ ¬(ps.level_feed_tank > 1/5)) / 100)
              else 0)
            else 0)
          else 0) - ps.Q_feed) * RAMP_RATE := rfl

lemma tick_state_Q_out (ps : PhysicsState) (c : SimulationControls)
    (dt : ℚ) (nz : Noise) (ts : ℚ) :
    (simulatePhysics ps c dt nz ts).state.Q_out =
      ps.Q_out +
        ((if c.dist_pump_on ∧ ps.level_clearwell > 1/10 then
            (if c.valve_401_open then min c.Q_out_sp DIST_PUMP_CAPACITY else 0)
          else 0) - ps.Q_out) * RAMP_RATE := rfl

lemma tick_state_pressure_well (ps : PhysicsState) (c : SimulationControls)
    (dt : ℚ) (nz : Noise) (ts : ℚ) :
    (simulatePhysics ps c dt nz ts).state.pressure_well =
      ps.pressure_well +
        ((if c.wellfield_on then (if c.valve_101_open then 3 else 12) else 0)
          - ps.pressure_well) * (1/2) := rfl

lemma tick_state_pressure_feed (ps : PhysicsState) (c : SimulationControls)
    (dt : ℚ) (nz : Noise) (ts : ℚ) :
    (simulatePhysics ps c dt nz ts).state.pressure_feed =
      ps.pressure_feed +
        ((if c.ro_feed_pump_on ∧ ps.level_feed_tank > 1/5 then
            (if c.valve_201_open then
              (if c.valve_202_open ∧ c.valve_203_open then 12
               else MAX_FEED_PRESSURE * 2)
            else MAX_FEED_PRESSURE * (22/10))
          else 0) - ps.pressure_feed) * (1/2) := rfl

lemma tick_state_pressure_dist (ps : PhysicsState) (c : SimulationControls)
    (dt : ℚ) (nz : Noise) (ts : ℚ) :
    (simulatePhysics ps c dt nz ts).state.pressure_dist =
      ps.pressure_dist +
        ((if c.dist_pump_on ∧ ps.level_clearwell > 1/10 then
            (if c.valve_401_open then 4 else 15)
          else 0) - ps.pressure_dist) * (1/2) := rfl

lemma tick_state_Cl_true (ps : PhysicsState) (c : SimulationControls)
    (dt : ℚ) (nz : Noise) (ts : ℚ) :
    (simulatePhysics ps c dt nz ts).state.Cl_true =
      ps.Cl_true +
        ((if c.cl_pump_on then
            (if (simulatePhysics ps c dt nz ts).state.Q_feed > 5 then
              max 0 (c.Cl_dose * (9/10))
             else if c.Cl_dose > 0 then 50 else 0)
          else 0) - ps.Cl_true) * (1/10) := rfl

lemma tick_state_level_feed_tank (ps : PhysicsState) (c : SimulationControls)
    (dt : ℚ) (nz : Noise) (ts : ℚ) :
    (simulatePhysics ps c dt nz ts).state.level_feed_tank =
      (if (if ps.level_feed_tank +
              ((simulatePhysics ps c dt nz ts).state.Q_wellfield -
                (simulatePhysics ps c dt nz ts).state.Q_feed) * (dt / 3600) /
                TANK_AREA_FEED > 5 then (5:ℚ)
            else ps.level_feed_tank +
              ((simulatePhysics ps c dt nz ts).state.Q_wellfield -
                (simulatePhysics ps c dt nz ts).state.Q_feed) * (dt / 3600) /
                TANK_AREA_FEED) < 0 then (0:ℚ)
       else (if ps.level_feed_tank +
              ((simulatePhysics ps c dt nz ts).state.Q_wellfield -
                (simulatePhysics ps c dt nz ts).state.Q_feed) * (dt / 3600) /
                TANK_AREA_FEED > 5 then (5:ℚ)
            else ps.level_feed_tank +
              ((simulatePhysics ps c dt nz ts).state.Q_wellfield -
                (simulatePhysics ps c dt nz ts).state.Q_feed) * (dt / 3600) /
                TANK_AREA_FEED)) := rfl

lemma tick_state_level_clearwell (ps : PhysicsState) (c : SimulationControls)
    (dt : ℚ) (nz : Noise) (ts : ℚ) :
    (simulatePhysics ps c dt nz ts).state.level_clearwell =
      (if (if ps.level_clearwell +
              ((simulatePhysics ps c dt nz ts).state.Q_feed * (75/100) -
                (simulatePhysics ps c dt nz ts).state.Q_out) * (dt / 3600) /
                TANK_AREA_CLEARWELL > 6 then (6:ℚ)
            else ps.level_clearwell +
              ((simulatePhysics ps c dt nz ts).state.Q_feed * (75/100) -
                (simulatePhysics ps c dt nz ts).state.Q_out) * (dt / 3600) /
                TANK_AREA_CLEARWELL) < 0 then (0:ℚ)
       else (if ps.level_clearwell +
              ((simulatePhysics ps c dt nz ts).state.Q_feed * (75/100) -
                (simulatePhysics ps c dt nz ts).state.Q_out) * (dt / 3600) /
                TANK_AREA_CLEARWELL > 6 then (6:ℚ)
            else ps.level_clearwell +
              ((simulatePhysics ps c dt nz ts).state.Q_feed * (75/100) -
                (simulatePhysics ps c dt nz ts).state.Q_out) * (dt / 3600) /
                TANK_AREA_CLEARWELL)) := rfl

lemma tick_snap_Q_wellfield (ps : PhysicsState) (c : SimulationControls)
    (dt : ℚ) (nz : Noise) (ts : ℚ) :
    (simulatePhysics ps c dt nz ts).snap.Q_wellfield =
      (if (simulatePhysics ps c dt nz ts).state.Q_wellfield > 1 then
        (simulatePhysics ps c dt nz ts).state.Q_wellfield + nz.nQw else 0) := rfl

lemma tick_snap_Q_feed (ps : PhysicsState) (c : SimulationControls)
    (dt : ℚ) (nz : Noise) (ts : ℚ) :
    (simulatePhysics ps c dt nz ts).snap.Q_feed =
      (if (simulatePhysics ps c dt nz ts).state.Q_feed > 1 then
        (simulatePhysics ps c dt nz ts).state.Q_feed + nz.nQf else 0) := rfl

lemma tick_snap_Q_perm (ps : PhysicsState) (c : SimulationControls)
    (dt : ℚ) (nz : Noise) (ts : ℚ) :
    (simulatePhysics ps c dt nz ts).snap.Q_perm =
      (if (simulatePhysics ps c dt nz ts).state.Q_feed * (75/100) > 1/10 then
        (simulatePhysics ps c dt nz ts).state.Q_feed * (75/100) + nz.nQp else 0) := rfl

lemma tick_snap_Q_brine (ps : PhysicsState) (c : SimulationControls)
    (dt : ℚ) (nz : Noise) (ts : ℚ) :
    (simulatePhysics ps c dt nz ts).snap.Q_brine =
      (if (simulatePhysics ps c dt nz ts).state.Q_feed -
            (simulatePhysics ps c dt nz ts).state.Q_feed * (75/100) > 1/10 then
        ((simulatePhysics ps c dt nz ts).state.Q_feed -
          (simulatePhysics ps c dt nz ts).state.Q_feed * (75/100)) + nz.nQb
       else 0) := rfl

lemma tick_snap_Q_out (ps : PhysicsState) (c : SimulationControls)
    (dt : ℚ) (nz : Noise) (ts : ℚ) :
    (simulatePhysics ps c dt nz ts).snap.Q_out =
      (if (simulatePhysics ps c dt nz ts).state.Q_out > 1 then
        (simulatePhysics ps c dt nz ts).state.Q_out + nz.nQo else 0) := rfl

lemma tick_snap_pressure_well (ps : PhysicsState) (c : SimulationControls)
    (dt : ℚ) (nz : Noise) (ts : ℚ) :
    (simulatePhysics ps c dt nz ts).snap.pressure_well =
      (simulatePhysics ps c dt nz ts).state.pressure_well + nz.nPw := rfl

lemma tick_snap_pressure_feed (ps : PhysicsState) (c : SimulationControls)
    (dt : ℚ) (nz : Noise) (ts : ℚ) :
    (simulatePhysics ps c dt nz ts).snap.pressure_feed =
      (simulatePhysics ps c dt nz ts).state.pressure_feed + nz.nPf := rfl

lemma tick_snap_pressure_dist (ps : PhysicsState) (c : SimulationControls)
    (dt : ℚ) (nz : Noise) (ts : ℚ) :
    (simulatePhysics ps c dt nz ts).snap.pressure_dist =
      (simulatePhysics ps c dt nz ts).state.pressure_dist + nz.nPd := rfl

lemma tick_snap_levels (ps : PhysicsState) (c : SimulationControls)
    (dt : ℚ) (nz : Noise) (ts : ℚ) :
    (simulatePhysics ps c dt nz ts).snap.level_feed_tank =
      (simulatePhysics ps c dt nz ts).state.level_feed_tank ∧
    (simulatePhysics ps c dt nz ts).snap.level_clearwell =
      (simulatePhysics ps c dt nz ts).state.level_clearwell := ⟨rfl, rfl⟩

lemma tick_snap_healths (ps : PhysicsState) (c : SimulationControls)
    (dt : ℚ) (nz : Noise) (ts : ℚ) :
    (simulatePhysics ps c dt nz ts).snap.membrane_health =
      (simulatePhysics ps c dt nz ts).state.membrane_health ∧
    (simulatePhysics ps c dt nz ts).snap.pump_well_health =
      (simulatePhysics ps c dt nz ts).state.pump_well_health ∧
    (simulatePhysics ps c dt nz ts).snap.pump_feed_health =
      (simulatePhysics ps c dt nz ts).state.pump_feed_health ∧
    (simulatePhysics ps c dt nz ts).snap.pump_dist_health =
      (simulatePhysics ps c dt nz ts).state.pump_dist_health ∧
    (simulatePhysics ps c dt nz ts).snap.pipe_well_health =
      (simulatePhysics ps c dt nz ts).state.pipe_well_health ∧
    (simulatePhysics ps c dt nz ts).snap.pipe_feed_health =
      (simulatePhysics ps c dt nz ts).state.pipe_feed_health ∧
    (simulatePhysics ps c dt nz ts).snap.pipe_dist_health =
      (simulatePhysics ps c dt nz ts).state.pipe_dist_health :=
  ⟨rfl, rfl, rfl, rfl, rfl, rfl, rfl⟩

/-! ### Health monotonicity machinery -/

lemma healthsLe_refl (a : PhysicsState) : healthsLe a a :=
  ⟨le_rfl, le_rfl, le_rfl, le_rfl, le_rfl, le_rfl, le_rfl⟩

lemma healthsLe_trans {a b c : PhysicsState} (h1 : healthsLe a b)
    (h2 : healthsLe b c) : healthsLe a c :=
  ⟨h1.1.trans h2.1, h1.2.1.trans h2.2.1, h1.2.2.1.trans h2.2.2.1,
   h1.2.2.2.1.trans h2.2.2.2.1, h1.2.2.2.2.1.trans h2.2.2.2.2.1,
   h1.2.2.2.2.2.1.trans h2.2.2.2.2.2.1, h1.2.2.2.2.2.2.trans h2.2.2.2.2.2.2⟩

lemma tick_healths (ps : PhysicsState) (c : SimulationControls) (dt : ℚ)
    (nz : Noise) (ts : ℚ) (hdt : 0 ≤ dt) (hh : healthsInRange ps) :
    healthsInRange (simulatePhysics ps c dt nz ts).state ∧
    healthsLe (simulatePhysics ps c dt nz ts).state ps := by
  obtain ⟨⟨m0, m1⟩, ⟨pw0, pw1⟩, ⟨pf0, pf1⟩, ⟨pd0, pd1⟩, ⟨w0, w1⟩, ⟨f0, f1⟩, ⟨d0, d1⟩⟩ := hh
  rw [healthsInRange, healthsLe, tick_state_membrane_health,
    tick_state_pump_well_health, tick_state_pump_feed_health,
    tick_state_pump_dist_health, tick_state_pipe_well_health,
    tick_state_pipe_feed_health, tick_state_pipe_dist_health]
  refine ⟨⟨⟨damageStep_nonneg (damageStep_nonneg m0),
    ((damageStep_le (damageStep_nonneg m0) zero_le_one hdt).trans
      (damageStep_le m0 (by norm_num) hdt)).trans m1⟩,
    ⟨damageStep_nonneg pw0, (damageStep_le pw0 (by norm_num) hdt).trans pw1⟩,
    ⟨damageStep_nonneg pf0, (damageStep_le pf0 (by norm_num) hdt).trans pf1⟩,
    ⟨damageStep_nonneg (damageStep_nonneg pd0),
      ((damageStep_le (damageStep_nonneg pd0) (by norm_num) hdt).trans
        (damageStep_le pd0 (by norm_num) hdt)).trans pd1⟩,
    ⟨damageStep_nonneg w0, (damageStep_le w0 (by norm_num) hdt).trans w1⟩,
    ⟨damageStep_nonneg f0, (damageStep_le f0 (by norm_num) hdt).trans f1⟩,
    ⟨damageStep_nonneg d0, (damageStep_le d0 (by norm_num) hdt).trans d1⟩⟩,
    (damageStep_le (damageStep_nonneg m0) zero_le_one hdt).trans
      (damageStep_le m0 (by norm_num) hdt),
    damageStep_le pw0 (by norm_num) hdt,
    damageStep_le pf0 (by norm_num) hdt,
    (damageStep_le (damageStep_nonneg pd0) (by norm_num) hdt).trans
      (damageStep_le pd0 (by norm_num) hdt),
    damageStep_le w0 (by norm_num) hdt,
    damageStep_le f0 (by norm_num) hdt,
    damageStep_le d0 (by norm_num) hdt⟩

lemma runTicks_healths :
    ∀ (L : List (SimulationControls × ℚ × Noise × ℚ)) (ps : PhysicsState),
      healthsInRange ps → (∀ i ∈ L, 0 ≤ i.2.1) →
      healthsInRange (runTicks ps L) ∧ healthsLe (runTicks ps L) ps := by
  intro L
  induction L with
  | nil => exact fun ps h _ => ⟨h, healthsLe_refl ps⟩
  | cons i rest ih =>
    intro ps hh hL
    have hdt : 0 ≤ i.2.1 := hL i (List.mem_cons_self i rest)
    have h1 := tick_healths ps i.1 i.2.1 i.2.2.1 i.2.2.2 hdt hh
    have h2 := ih _ h1.1 (fun j hj => hL j (List.mem_cons_of_mem _ hj))
    exact ⟨h2.1, healthsLe_trans h2.2 h1.2⟩

/-! ### Closed form of scenario S1 -/

lemma s1_step (s : PhysicsState)
    (hQw : s.Q_wellfield = 0) (hQf : s.Q_feed = 0) (hQo : s.Q_out = 0)
    (hlf : s.level_feed_tank = 5/2) (hlc : s.level_clearwell = 3)
    (hpw : s.pressure_well = 0) (hpd : s.pressure_dist = 0)
    (hcl : s.Cl_true = 0)
    (hP : s.pressure_feed > 10) (hM : s.membrane_health ≥ 1/10)
    (hF : s.pipe_feed_health ≥ 1/20) :
    (simulatePhysics s s1Controls (1/10) zeroNoise 0).state =
      { s with
          pressure_feed := 15 + s.pressure_feed * (1/2),
          membrane_health := s.membrane_health - 1/10,
          pipe_feed_health := s.pipe_feed_health - 1/20 } := by
  have hP1 : s.pressure_feed + (30 - s.pressure_feed) * (1/2 : ℚ) > 20 := by linarith
  simp only [simulatePhysics, damageStep, s1Controls, initialPhysicsState,
    WELL_FLOW_RATE, RO_FEED_RATE, DIST_PUMP_CAPACITY, RAMP_RATE,
    MAX_FEED_PRESSURE, MEMBRANE_CHLORINE_LIMIT, TANK_AREA_FEED,
    TANK_AREA_CLEARWELL, zeroNoise]
  rw [hQw, hQf, hQo, hlf, hlc, hpw, hpd, hcl]
  norm_num
  rw [if_pos hP1, if_pos hP1]
  exact ⟨by ring, max_eq_right (by linarith), max_eq_right (by linarith)⟩

lemma s1_one : s1Run 1 = { initialPhysicsState with pressure_feed := 15 } := by
  show (simulatePhysics initialPhysicsState s1Controls (1/10) zeroNoise 0).state = _
  simp only [simulatePhysics, damageStep, s1Controls, initialPhysicsState,
    WELL_FLOW_RATE, RO_FEED_RATE, DIST_PUMP_CAPACITY, RAMP_RATE,
    MAX_FEED_PRESSURE, MEMBRANE_CHLORINE_LIMIT, TANK_AREA_FEED,
    TANK_AREA_CLEARWELL, zeroNoise]
  norm_num

/-- Closed form of the S1 run: after `n + 1` ticks the only moved fields are
`pressure_feed` (first-order approach to 30 bar), `membrane_health`
(−0.1 per damaging tick) and `pipe_feed_health` (−0.05 per damaging tick);
damage starts with the second tick, when `pressure_feed` first exceeds
20 bar. -/
lemma s1_closed (n : ℕ) (hn : n ≤ 900) :
    s1Run (n + 1) =
      { initialPhysicsState with
          pressure_feed := 30 - 15 * (1/2 : ℚ)^n,
          membrane_health := 100 - (n : ℚ) * (1/10),
          pipe_feed_health := 100 - (n : ℚ) * (1/20) } := by
  induction n with
  | zero => rw [s1_one]; simp [initialPhysicsState]; norm_num
  | succ k ih =>
    have hk : k ≤ 900 := by omega
    have hpow0 : (0:ℚ) < (1/2)^k := by positivity
    have hpow1 : ((1/2:ℚ))^k ≤ 1 := pow_le_one₀ (by norm_num) (by norm_num)
    have hkQ : (k : ℚ) ≤ 900 := by exact_mod_cast hk
    have hkQ0 : (0:ℚ) ≤ (k : ℚ) := by positivity
    show (simulatePhysics (s1Run (k + 1)) s1Controls (1/10) zeroNoise 0).state = _
    rw [ih hk, s1_step _ rfl rfl rfl rfl rfl rfl rfl rfl
      (by show (30:ℚ) - 15 * (1/2)^k > 10; nlinarith)
      (by show (100:ℚ) - (k:ℚ) * (1/10) ≥ 1/10; nlinarith)
      (by show (100:ℚ) - (k:ℚ) * (1/20) ≥ 1/20; nlinarith)]
    simp only [PhysicsState.mk.injEq]
    norm_num
    exact ⟨by ring, by ring, by ring⟩

/-! ### Further helper lemmas -/

lemma clamp_eq (B x : ℚ) (hB : 0 ≤ B) :
    (if (if x > B then B else x) < 0 then (0:ℚ) else (if x > B then B else x)) =
      max 0 (min B x) := by
  rcases lt_or_le B x with h | h
  · rw [if_pos h, if_neg (not_lt.mpr hB), min_eq_left h.le, max_eq_right hB]
  · rw [if_neg (not_lt.mpr h), min_eq_right h]
    rcases lt_or_le x 0 with h0 | h0
    · rw [if_pos h0, max_eq_left h0.le]
    · rw [if_neg (not_lt.mpr h0), max_eq_right h0]

lemma tick_Q_feed_nonneg (ps : PhysicsState) (c : SimulationControls) (dt : ℚ)
    (nz : Noise) (ts : ℚ) (hq : 0 ≤ ps.Q_feed) (hh : 0 ≤ ps.pump_feed_health) :
    0 ≤ (simulatePhysics ps c dt nz ts).state.Q_feed := by
  rw [tick_state_Q_feed]
  have ht : (0:ℚ) ≤
      (if c.ro_feed_pump_on ∧ ps.level_feed_tank > 1/5 then
        (if c.valve_201_open then
          (if c.valve_202_open ∧ c.valve_203_open then
            RO_FEED_RATE *
              (damageStep ps.pump_feed_health (5/10) dt
                (c.ro_feed_pump_on ∧ ¬(ps.level_feed_tank > 1/5)) / 100)
          else 0)
        else 0)
      else 0) := by
    split_ifs <;>
      first
        | exact mul_nonneg (by norm_num [RO_FEED_RATE])
            (div_nonneg (damageStep_nonneg hh) (by norm_num))
        | norm_num
  rw [RAMP_RATE]
  linarith

/-! ### Claim theorems -/

/-- Claim C1: for every tick of `simulatePhysics` (any controls, any
`dt ≥ 0`) each of the seven health variables stays in `[0, 100]` and does
not exceed its pre-tick value; across any sequence of ticks with no reset
in between, health never increases; and `resetDamage` is the operation that
raises health (back to 100, itself in range). -/
theorem C1_health_in_range_and_monotone
    (ps : PhysicsState) (c : SimulationControls) (dt : ℚ) (nz : Noise) (ts : ℚ)
    (L : List (SimulationControls × ℚ × Noise × ℚ))
    (hh : healthsInRange ps) (hdt : 0 ≤ dt) (hL : ∀ i ∈ L, 0 ≤ i.2.1) :
    healthsInRange (simulatePhysics ps c dt nz ts).state ∧
    healthsLe (simulatePhysics ps c dt nz ts).state ps ∧
    healthsInRange (runTicks ps L) ∧
    healthsLe (runTicks ps L) ps ∧
    healthsLe ps (resetDamage ps) ∧
    healthsInRange (resetDamage ps) := by
  obtain ⟨h1, h2⟩ := tick_healths ps c dt nz ts hdt hh
  obtain ⟨h3, h4⟩ := runTicks_healths L ps hh hL
  obtain ⟨⟨-, m⟩, ⟨-, pw⟩, ⟨-, pf⟩, ⟨-, pd⟩, ⟨-, w⟩, ⟨-, f⟩, ⟨-, d⟩⟩ := hh
  exact ⟨h1, h2, h3, h4, ⟨m, pw, pf, pd, w, f, d⟩,
    by norm_num [healthsInRange, resetDamage]⟩

/-- Witness for C1 at the default initial state, one S1 tick, and the
singleton tick list. -/
theorem C1_health_in_range_and_monotone_witness :
    healthsInRange initialPhysicsState ∧ (0:ℚ) ≤ 1/10 ∧
    (∀ i ∈ ([(s1Controls, (1/10 : ℚ), zeroNoise, (0:ℚ))] :
        List (SimulationControls × ℚ × Noise × ℚ)), 0 ≤ i.2.1) ∧
    (healthsInRange
        (simulatePhysics initialPhysicsState s1Controls (1/10) zeroNoise 0).state ∧
      healthsLe
        (simulatePhysics initialPhysicsState s1Controls (1/10) zeroNoise 0).state
        initialPhysicsState ∧
      healthsInRange (runTicks initialPhysicsState
        [(s1Controls, (1/10 : ℚ), zeroNoise, (0:ℚ))]) ∧
      healthsLe (runTicks initialPhysicsState
        [(s1Controls, (1/10 : ℚ), zeroNoise, (0:ℚ))]) initialPhysicsState ∧
      healthsLe initialPhysicsState (resetDamage initialPhysicsState) ∧
      healthsInRange (resetDamage initialPhysicsState)) := by
  have hh0 : healthsInRange initialPhysicsState := by
    norm_num [healthsInRange, initialPhysicsState]
  have hL0 : ∀ i ∈ ([(s1Controls, (1/10 : ℚ), zeroNoise, (0:ℚ))] :
      List (SimulationControls × ℚ × Noise × ℚ)), 0 ≤ i.2.1 := by
    intro i hi
    rw [List.mem_singleton] at hi
    rw [hi]
    norm_num
  exact ⟨hh0, by norm_num, hL0,
    C1_health_in_range_and_monotone initialPhysicsState s1Controls (1/10)
      zeroNoise 0 _ hh0 (by norm_num) hL0⟩

/-- Claim C2: each damage condition debits its target health by exactly
`rate · dt`, floored at 0, at the normative rates of the spec's damage
table, with simultaneous conditions debited independently in the same tick
(the two `pump_dist` debits and the two `membrane` debits compose). -/
theorem C2_damage_rates_match_spec_table (ps : PhysicsState)
    (c : SimulationControls) (dt : ℚ) (nz : Noise) (ts : ℚ) :
    (simulatePhysics ps c dt nz ts).state.pump_well_health =
      spec_healthDebit ps.pump_well_health (3/10) dt
        (c.wellfield_on ∧ ¬c.valve_101_open) ∧
    (simulatePhysics ps c dt nz ts).state.pump_feed_health =
      spec_healthDebit ps.pump_feed_health (5/10) dt
        (c.ro_feed_pump_on ∧ ¬(ps.level_feed_tank > 1/5)) ∧
    (simulatePhysics ps c dt nz ts).state.pump_dist_health =
      spec_healthDebit
        (spec_healthDebit ps.pump_dist_health (5/10) dt
          (c.dist_pump_on ∧ ps.level_clearwell < 1/5))
        (3/10) dt (c.dist_pump_on ∧ ¬c.valve_401_open) ∧
    (simulatePhysics ps c dt nz ts).state.pipe_well_health =
      spec_healthDebit ps.pipe_well_health (2/10) dt
        ((simulatePhysics ps c dt nz ts).state.pressure_well > 10) ∧
    (simulatePhysics ps c dt nz ts).state.pipe_feed_health =
      spec_healthDebit ps.pipe_feed_health (5/10) dt
        ((simulatePhysics ps c dt nz ts).state.pressure_feed > 20) ∧
    (simulatePhysics ps c dt nz ts).state.pipe_dist_health =
      spec_healthDebit ps.pipe_dist_health (3/10) dt
        ((simulatePhysics ps c dt nz ts).state.pressure_dist > 12) ∧
    (simulatePhysics ps c dt nz ts).state.membrane_health =
      spec_healthDebit
        (spec_healthDebit ps.membrane_health (2/10) dt
          ((simulatePhysics ps c dt nz ts).state.Cl_true > 1/10 ∧
           (simulatePhysics ps c dt nz ts).state.Q_feed > 0))
        1 dt ((simulatePhysics ps c dt nz ts).state.pressure_feed > 20) :=
  ⟨rfl, rfl, rfl, rfl, rfl, rfl, rfl⟩

/-- Claim C3: the RO feed target computation follows the spec's four-case
rule; the tick ramps `Q_feed` toward the spec target with factor 0.1 and
`pressure_feed` toward the spec pressure with factor 0.5. -/
theorem C3_ro_feed_targets_match_spec (ps : PhysicsState)
    (c : SimulationControls) (dt : ℚ) (nz : Noise) (ts : ℚ) :
    (simulatePhysics ps c dt nz ts).state.Q_feed =
      ps.Q_feed + ((spec_roFeedTarget ps c).1 - ps.Q_feed) * (1/10) ∧
    (simulatePhysics ps c dt nz ts).state.pressure_feed =
      ps.pressure_feed + ((spec_roFeedTarget ps c).2 - ps.pressure_feed) * (1/2) := by
  constructor
  · rw [tick_state_Q_feed]
    simp only [spec_roFeedTarget, damageStep, RO_FEED_RATE, RAMP_RATE, MAX_FEED_PRESSURE]
    split_ifs <;> first | rfl | (exfalso; tauto) | norm_num
  · rw [tick_state_pressure_feed]
    simp only [spec_roFeedTarget, RAMP_RATE, MAX_FEED_PRESSURE]
    split_ifs <;> first | rfl | (exfalso; tauto) | norm_num

/-- Counterexample to claim C4 as stated: with an established feed flow of
50 m³/h and admissible jitter the published snapshot violates
`Q_perm + Q_brine = Q_feed` by 1.9 m³/h, far beyond numerical tolerance. -/
theorem C4_mass_balance_counterexample :
    noiseBounded c4Noise ∧
    |(simulatePhysics c4State appInitialControls (1/10) c4Noise 0).snap.Q_feed -
      ((simulatePhysics c4State appInitialControls (1/10) c4Noise 0).snap.Q_perm +
        (simulatePhysics c4State appInitialControls (1/10) c4Noise 0).snap.Q_brine)| =
      19/10 := by
  constructor
  · norm_num [noiseBounded, c4Noise, zeroNoise]
  · simp only [simulatePhysics, damageStep, c4State, appInitialControls,
      initialPhysicsState, c4Noise, zeroNoise, WELL_FLOW_RATE, RO_FEED_RATE,
      DIST_PUMP_CAPACITY, RAMP_RATE, MAX_FEED_PRESSURE,
      MEMBRANE_CHLORINE_LIMIT, TANK_AREA_FEED, TANK_AREA_CLEARWELL]
    norm_num

/-- Claim C4 amended: the mass-balance identity holds for the published
snapshot only up to the jitter and snap-to-zero thresholds: for every tick
from a state with nonnegative feed flow and pump health, and every jitter
within the drawn intervals, `|Q_feed − (Q_perm + Q_brine)| < 2 m³/h`
(on the integrated state the identity is exact since
`Q_perm = 0.75 · Q_feed` and `Q_brine = Q_feed − Q_perm`). -/
theorem C4_mass_balance_amended (ps : PhysicsState) (c : SimulationControls)
    (dt : ℚ) (nz : Noise) (ts : ℚ) (hq : 0 ≤ ps.Q_feed)
    (hh : 0 ≤ ps.pump_feed_health) (hnz : noiseBounded nz) :
    |(simulatePhysics ps c dt nz ts).snap.Q_feed -
      ((simulatePhysics ps c dt nz ts).snap.Q_perm +
        (simulatePhysics ps c dt nz ts).snap.Q_brine)| < 2 := by
  have hf := tick_Q_feed_nonneg ps c dt nz ts hq hh
  obtain ⟨-, ⟨hQf1, hQf2⟩, ⟨hQp1, hQp2⟩, ⟨hQb1, hQb2⟩, -⟩ := hnz
  rw [tick_snap_Q_feed, tick_snap_Q_perm, tick_snap_Q_brine]
  split_ifs <;> (refine abs_lt.mpr ⟨?_, ?_⟩ <;> linarith)

/-- Witness for the amended C4 at the default initial state with zero
jitter. -/
theorem C4_mass_balance_amended_witness :
    (0:ℚ) ≤ initialPhysicsState.Q_feed ∧
    (0:ℚ) ≤ initialPhysicsState.pump_feed_health ∧
    noiseBounded zeroNoise ∧
    |(simulatePhysics initialPhysicsState currentControlsInit (1/10) zeroNoise 0).snap.Q_feed -
      ((simulatePhysics initialPhysicsState currentControlsInit (1/10) zeroNoise 0).snap.Q_perm +
        (simulatePhysics initialPhysicsState currentControlsInit (1/10) zeroNoise 0).snap.Q_brine)| < 2 :=
  ⟨by norm_num [initialPhysicsState], by norm_num [initialPhysicsState],
   by norm_num [noiseBounded, zeroNoise],
   C4_mass_balance_amended initialPhysicsState currentControlsInit (1/10)
     zeroNoise 0 (by norm_num [initialPhysicsState])
     (by norm_num [initialPhysicsState]) (by norm_num [noiseBounded, zeroNoise])⟩

/-- Counterexample to claim C5 as stated: after exactly 60 s (600 ticks at
`dt = 0.1 s`) of the P-201 deadhead scenario S1, `membrane_health` is
exactly 40.1 (not `< 40`) and `pipe_feed_health` is exactly 70.05 (not
`< 70`); the first damaging tick is the second one, so only 599 of the 600
ticks debit. -/
theorem C5_s1_deadhead_counterexample :
    (s1Run 600).membrane_health = 401/10 ∧
    ¬((s1Run 600).membrane_health < 40) ∧
    (s1Run 600).pipe_feed_health = 1401/20 ∧
    ¬((s1Run 600).pipe_feed_health < 70) ∧
    (s1Run 600).pressure_feed > 20 ∧ (s1Run 600).Q_feed = 0 := by
  have h := s1_closed 599 (by norm_num)
  norm_num at h
  rw [h]
  norm_num [initialPhysicsState]

/-- Claim C5 amended: the stated S1 outcome (`pressure_feed > 20`,
`membrane_health < 40`, `pipe_feed_health < 70`, `Q_feed = 0`) holds after
60.2 s (602 ticks at `dt = 0.1 s`) rather than after 60 s. -/
theorem C5_s1_deadhead_amended :
    (s1Run 602).pressure_feed > 20 ∧
    (s1Run 602).membrane_health < 40 ∧
    (s1Run 602).pipe_feed_health < 70 ∧
    (s1Run 602).Q_feed = 0 := by
  have h := s1_closed 601 (by norm_num)
  norm_num at h
  rw [h]
  norm_num [initialPhysicsState]

/-- Claim C6: the chlorine model computes `current_Cl` by the spec's
three-case rule (evaluated at the post-ramp feed flow) and ramps `Cl_true`
by a factor 0.1 toward it; holding the dosing pump on with `Q_feed ≤ 5` and
`Cl_dose > 0` contracts the distance to 50 mg/L by 0.9 per tick. -/
theorem C6_chlorine_model (ps : PhysicsState) (c : SimulationControls)
    (dt : ℚ) (nz : Noise) (ts : ℚ) (hcd : 0 ≤ c.Cl_dose) :
    (simulatePhysics ps c dt nz ts).state.Cl_true =
      ps.Cl_true +
        (spec_currentCl c ((simulatePhysics ps c dt nz ts).state.Q_feed) -
          ps.Cl_true) * (1/10) ∧
    (c.cl_pump_on = true → (simulatePhysics ps c dt nz ts).state.Q_feed ≤ 5 →
      0 < c.Cl_dose →
      50 - (simulatePhysics ps c dt nz ts).state.Cl_true =
        (9/10) * (50 - ps.Cl_true)) := by
  have h1 : (simulatePhysics ps c dt nz ts).state.Cl_true =
      ps.Cl_true +
        (spec_currentCl c ((simulatePhysics ps c dt nz ts).state.Q_feed) -
          ps.Cl_true) * (1/10) := by
    rw [tick_state_Cl_true]
    congr 2
    simp only [spec_currentCl]
    by_cases hon : c.cl_pump_on = true
    · by_cases hq : (simulatePhysics ps c dt nz ts).state.Q_feed > 5
      · rw [if_pos hon, if_pos hq, if_pos ⟨hon, hq⟩,
          max_eq_right (mul_nonneg hcd (by norm_num))]
        ring
      · by_cases hd : c.Cl_dose > 0
        · rw [if_pos hon, if_neg hq, if_pos hd, if_neg (fun h => hq h.2),
            if_pos ⟨hon, not_lt.mp hq, hd⟩]
        · rw [if_pos hon, if_neg hq, if_neg hd, if_neg (fun h => hq h.2),
            if_neg (fun h => hd h.2.2)]
    · rw [if_neg hon, if_neg (fun h => hon h.1), if_neg (fun h => hon h.1)]
  refine ⟨h1, fun hon hq5 hd0 => ?_⟩
  rw [h1]
  have h50 : spec_currentCl c ((simulatePhysics ps c dt nz ts).state.Q_feed) = 50 := by
    simp only [spec_currentCl]
    rw [if_neg (by rintro ⟨-, h⟩; exact absurd h (not_lt.mpr hq5)),
      if_pos ⟨hon, hq5, hd0⟩]
  rw [h50]; ring

/-- Witness for C6 at the default initial state with the chlorine pump on,
`Cl_dose = 3` and no feed flow, so the super-chlorination branch fires. -/
theorem C6_chlorine_model_witness :
    (0:ℚ) ≤ c6Controls.Cl_dose ∧
    c6Controls.cl_pump_on = true ∧
    (simulatePhysics initialPhysicsState c6Controls (1/10) zeroNoise 0).state.Q_feed ≤ 5 ∧
    (0:ℚ) < c6Controls.Cl_dose ∧
    (simulatePhysics initialPhysicsState c6Controls (1/10) zeroNoise 0).state.Cl_true =
      initialPhysicsState.Cl_true +
        (spec_currentCl c6Controls
          ((simulatePhysics initialPhysicsState c6Controls (1/10) zeroNoise 0).state.Q_feed) -
          initialPhysicsState.Cl_true) * (1/10) ∧
    50 - (simulatePhysics initialPhysicsState c6Controls (1/10) zeroNoise 0).state.Cl_true =
      (9/10) * (50 - initialPhysicsState.Cl_true) := by
  have hq5 : (simulatePhysics initialPhysicsState c6Controls (1/10) zeroNoise 0).state.Q_feed ≤ 5 := by
    rw [tick_state_Q_feed]
    norm_num [initialPhysicsState, c6Controls, appInitialControls]
  have h := C6_chlorine_model initialPhysicsState c6Controls (1/10) zeroNoise 0
    (by norm_num [c6Controls, appInitialControls])
  exact ⟨by norm_num [c6Controls, appInitialControls], rfl, hq5,
    by norm_num [c6Controls, appInitialControls], h.1,
    h.2 rfl hq5 (by norm_num [c6Controls, appInitialControls])⟩

/-- Claim C7: after every tick (any prior state, any controls) the levels
satisfy `level_feed_tank ∈ [0, 5]` and `level_clearwell ∈ [0, 6]`; each
level equals the mass-balance update clamped into its range (mass beyond
the clamp is discarded), and the published levels equal the state levels. -/
theorem C7_level_clamp (ps : PhysicsState) (c : SimulationControls) (dt : ℚ)
    (nz : Noise) (ts : ℚ) :
    (simulatePhysics ps c dt nz ts).state.level_feed_tank =
      max 0 (min 5 (ps.level_feed_tank +
        ((simulatePhysics ps c dt nz ts).state.Q_wellfield -
          (simulatePhysics ps c dt nz ts).state.Q_feed) * (dt / 3600) /
          TANK_AREA_FEED)) ∧
    (simulatePhysics ps c dt nz ts).state.level_clearwell =
      max 0 (min 6 (ps.level_clearwell +
        ((simulatePhysics ps c dt nz ts).state.Q_feed * (75/100) -
          (simulatePhysics ps c dt nz ts).state.Q_out) * (dt / 3600) /
          TANK_AREA_CLEARWELL)) ∧
    0 ≤ (simulatePhysics ps c dt nz ts).state.level_feed_tank ∧
    (simulatePhysics ps c dt nz ts).state.level_feed_tank ≤ 5 ∧
    0 ≤ (simulatePhysics ps c dt nz ts).state.level_clearwell ∧
    (simulatePhysics ps c dt nz ts).state.level_clearwell ≤ 6 ∧
    (simulatePhysics ps c dt nz ts).snap.level_feed_tank =
      (simulatePhysics ps c dt nz ts).state.level_feed_tank ∧
    (simulatePhysics ps c dt nz ts).snap.level_clearwell =
      (simulatePhysics ps c dt nz ts).state.level_clearwell := by
  have hf : (simulatePhysics ps c dt nz ts).state.level_feed_tank =
      max 0 (min 5 (ps.level_feed_tank +
        ((simulatePhysics ps c dt nz ts).state.Q_wellfield -
          (simulatePhysics ps c dt nz ts).state.Q_feed) * (dt / 3600) /
          TANK_AREA_FEED)) := by
    rw [tick_state_level_feed_tank, clamp_eq _ _ (by norm_num)]
  have hc : (simulatePhysics ps c dt nz ts).state.level_clearwell =
      max 0 (min 6 (ps.level_clearwell +
        ((simulatePhysics ps c dt nz ts).state.Q_feed * (75/100) -
          (simulatePhysics ps c dt nz ts).state.Q_out) * (dt / 3600) /
          TANK_AREA_CLEARWELL)) := by
    rw [tick_state_level_clearwell, clamp_eq _ _ (by norm_num)]
  refine ⟨hf, hc, ?_, ?_, ?_, ?_, rfl, rfl⟩
  · rw [hf]; exact le_max_left _ _
  · rw [hf]; exact max_le (by norm_num) (min_le_left _ _)
  · rw [hc]; exact le_max_left _ _
  · rw [hc]; exact max_le (by norm_num) (min_le_left _ _)

/-- Counterexample to claim C8 as stated: from the default initial state
(all pressures 0) with all controls off, an admissible jitter of −0.04 bar
makes the published `pressure_well` negative. -/
theorem C8_positivity_counterexample :
    noiseBounded c8Noise ∧
    (simulatePhysics initialPhysicsState appInitialControls (1/10) c8Noise 0).snap.pressure_well < 0 := by
  constructor
  · norm_num [noiseBounded, c8Noise, zeroNoise]
  · rw [tick_snap_pressure_well, tick_state_pressure_well]
    norm_num [initialPhysicsState, appInitialControls, c8Noise, zeroNoise]

/-- Claim C8 amended: the integrated state preserves nonnegativity of all
flows and pressures (given nonnegative pump health and outflow setpoint),
and the published `Q_wellfield`, `Q_feed`, `Q_out` are nonnegative for
every admissible jitter; published pressures and `Q_perm`/`Q_brine` can dip
below zero by less than half their jitter magnitude. -/
theorem C8_positivity_amended (ps : PhysicsState) (c : SimulationControls)
    (dt : ℚ) (nz : Noise) (ts : ℚ)
    (hQw : 0 ≤ ps.Q_wellfield) (hQf : 0 ≤ ps.Q_feed) (hQo : 0 ≤ ps.Q_out)
    (hPw : 0 ≤ ps.pressure_well) (hPf : 0 ≤ ps.pressure_feed)
    (hPd : 0 ≤ ps.pressure_dist) (hh : 0 ≤ ps.pump_feed_health)
    (hsp : 0 ≤ c.Q_out_sp) (hnz : noiseBounded nz) :
    0 ≤ (simulatePhysics ps c dt nz ts).state.Q_wellfield ∧
    0 ≤ (simulatePhysics ps c dt nz ts).state.Q_feed ∧
    0 ≤ (simulatePhysics ps c dt nz ts).state.Q_out ∧
    0 ≤ (simulatePhysics ps c dt nz ts).state.pressure_well ∧
    0 ≤ (simulatePhysics ps c dt nz ts).state.pressure_feed ∧
    0 ≤ (simulatePhysics ps c dt nz ts).state.pressure_dist ∧
    0 ≤ (simulatePhysics ps c dt nz ts).snap.Q_wellfield ∧
    0 ≤ (simulatePhysics ps c dt nz ts).snap.Q_feed ∧
    0 ≤ (simulatePhysics ps c dt nz ts).snap.Q_out := by
  obtain ⟨⟨hw1, hw2⟩, ⟨hf1, hf2⟩, -, -, ⟨ho1, ho2⟩, -⟩ := hnz
  have h1 : 0 ≤ (simulatePhysics ps c dt nz ts).state.Q_wellfield := by
    rw [tick_state_Q_wellfield, RAMP_RATE]
    have : (0:ℚ) ≤ (if c.wellfield_on then
        (if c.valve_101_open then WELL_FLOW_RATE else 0) else 0) := by
      split_ifs <;> norm_num [WELL_FLOW_RATE]
    linarith
  have h2 := tick_Q_feed_nonneg ps c dt nz ts hQf hh
  have h3 : 0 ≤ (simulatePhysics ps c dt nz ts).state.Q_out := by
    rw [tick_state_Q_out, RAMP_RATE]
    have : (0:ℚ) ≤ (if c.dist_pump_on ∧ ps.level_clearwell > 1/10 then
        (if c.valve_401_open then min c.Q_out_sp DIST_PUMP_CAPACITY else 0) else 0) := by
      split_ifs <;>
        first
          | exact le_min hsp (by norm_num [DIST_PUMP_CAPACITY])
          | norm_num
    linarith
  have h4 : 0 ≤ (simulatePhysics ps c dt nz ts).state.pressure_well := by
    rw [tick_state_pressure_well]
    have : (0:ℚ) ≤ (if c.wellfield_on then
        (if c.valve_101_open then (3:ℚ) else 12) else 0) := by
      split_ifs <;> norm_num
    linarith
  have h5 : 0 ≤ (simulatePhysics ps c dt nz ts).state.pressure_feed := by
    rw [tick_state_pressure_feed]
    have : (0:ℚ) ≤ (if c.ro_feed_pump_on ∧ ps.level_feed_tank > 1/5 then
        (if c.valve_201_open then
          (if c.valve_202_open ∧ c.valve_203_open then (12:ℚ)
           else MAX_FEED_PRESSURE * 2)
        else MAX_FEED_PRESSURE * (22/10))
      else 0) := by
      split_ifs <;> norm_num [MAX_FEED_PRESSURE]
    linarith
  have h6 : 0 ≤ (simulatePhysics ps c dt nz ts).state.pressure_dist := by
    rw [tick_state_pressure_dist]
    have : (0:ℚ) ≤ (if c.dist_pump_on ∧ ps.level_clearwell > 1/10 then
        (if c.valve_401_open then (4:ℚ) else 15) else 0) := by
      split_ifs <;> norm_num
    linarith
  refine ⟨h1, h2, h3, h4, h5, h6, ?_, ?_, ?_⟩
  · rw [tick_snap_Q_wellfield]; split_ifs <;> linarith
  · rw [tick_snap_Q_feed]; split_ifs <;> linarith
  · rw [tick_snap_Q_out]; split_ifs <;> linarith

/-- Witness for the amended C8 at the default initial state with the
`PlantApi` default controls and zero jitter. -/
theorem C8_positivity_amended_witness :
    (0:ℚ) ≤ initialPhysicsState.Q_wellfield ∧
    (0:ℚ) ≤ initialPhysicsState.Q_feed ∧
    (0:ℚ) ≤ initialPhysicsState.Q_out ∧
    (0:ℚ) ≤ initialPhysicsState.pressure_well ∧
    (0:ℚ) ≤ initialPhysicsState.pressure_feed ∧
    (0:ℚ) ≤ initialPhysicsState.pressure_dist ∧
    (0:ℚ) ≤ initialPhysicsState.pump_feed_health ∧
    (0:ℚ) ≤ currentControlsInit.Q_out_sp ∧
    noiseBounded zeroNoise ∧
    (0 ≤ (simulatePhysics initialPhysicsState currentControlsInit (1/10) zeroNoise 0).state.Q_wellfield ∧
     0 ≤ (simulatePhysics initialPhysicsState currentControlsInit (1/10) zeroNoise 0).state.Q_feed ∧
     0 ≤ (simulatePhysics initialPhysicsState currentControlsInit (1/10) zeroNoise 0).state.Q_out ∧
     0 ≤ (simulatePhysics initialPhysicsState currentControlsInit (1/10) zeroNoise 0).state.pressure_well ∧
     0 ≤ (simulatePhysics initialPhysicsState currentControlsInit (1/10) zeroNoise 0).state.pressure_feed ∧
     0 ≤ (simulatePhysics initialPhysicsState currentControlsInit (1/10) zeroNoise 0).state.pressure_dist ∧
     0 ≤ (simulatePhysics initialPhysicsState currentControlsInit (1/10) zeroNoise 0).snap.Q_wellfield ∧
     0 ≤ (simulatePhysics initialPhysicsState currentControlsInit (1/10) zeroNoise 0).snap.Q_feed ∧
     0 ≤ (simulatePhysics initialPhysicsState currentControlsInit (1/10) zeroNoise 0).snap.Q_out) :=
  ⟨by norm_num [initialPhysicsState], by norm_num [initialPhysicsState],
   by norm_num [initialPhysicsState], by norm_num [initialPhysicsState],
   by norm_num [initialPhysicsState], by norm_num [initialPhysicsState],
   by norm_num [initialPhysicsState], by norm_num [currentControlsInit],
   by norm_num [noiseBounded, zeroNoise],
   C8_positivity_amended initialPhysicsState currentControlsInit (1/10)
     zeroNoise 0 (by norm_num [initialPhysicsState])
     (by norm_num [initialPhysicsState]) (by norm_num [initialPhysicsState])
     (by norm_num [initialPhysicsState]) (by norm_num [initialPhysicsState])
     (by norm_num [initialPhysicsState]) (by norm_num [initialPhysicsState])
     (by norm_num [currentControlsInit]) (by norm_num [noiseBounded, zeroNoise])⟩

/-- Claim C9: `resetDamage` sets all seven health variables to exactly 100
and changes no other state variable; two calls in succession leave the
state identical to one call. -/
theorem C9_reset_damage_frame (ps : PhysicsState) :
    (resetDamage ps).membrane_health = 100 ∧
    (resetDamage ps).pump_well_health = 100 ∧
    (resetDamage ps).pump_feed_health = 100 ∧
    (resetDamage ps).pump_dist_health = 100 ∧
    (resetDamage ps).pipe_well_health = 100 ∧
    (resetDamage ps).pipe_feed_health = 100 ∧
    (resetDamage ps).pipe_dist_health = 100 ∧
    (resetDamage ps).Q_wellfield = ps.Q_wellfield ∧
    (resetDamage ps).Q_feed = ps.Q_feed ∧
    (resetDamage ps).Q_out = ps.Q_out ∧
    (resetDamage ps).level_feed_tank = ps.level_feed_tank ∧
    (resetDamage ps).level_clearwell = ps.level_clearwell ∧
    (resetDamage ps).pressure_well = ps.pressure_well ∧
    (resetDamage ps).pressure_feed = ps.pressure_feed ∧
    (resetDamage ps).pressure_dist = ps.pressure_dist ∧
    (resetDamage ps).TDS_feed = ps.TDS_feed ∧
    (resetDamage ps).pH_true = ps.pH_true ∧
    (resetDamage ps).Cl_true = ps.Cl_true ∧
    (resetDamage ps).H2S_feed = ps.H2S_feed ∧
    resetDamage (resetDamage ps) = resetDamage ps :=
  ⟨rfl, rfl, rfl, rfl, rfl, rfl, rfl, rfl, rfl, rfl, rfl, rfl, rfl, rfl, rfl,
   rfl, rfl, rfl, rfl, rfl⟩

/-- Counterexample to claim C10 as stated: the valves do not default open in
every component; the React `App` component initialises `valve_101_open` to
`false` while the `PlantApi` defaults have it `true`. -/
theorem C10_defaults_counterexample :
    appInitialControls.valve_101_open = false ∧
    currentControlsInit.valve_101_open = true := ⟨rfl, rfl⟩

/-- Claim C10 amended: the spec's cold-start defaults hold in
`PlantApi.currentControls` (pumps off, five valves open) and in
`physicsState` (`level_feed_tank = 2.5`, `level_clearwell = 3`, all seven
health variables 100, `TDS_feed = 1250`, `pH_true = 7.2`), but the React
`App` component initialises all five valves (and every other control)
closed/off until the API connects. -/
theorem C10_defaults_amended :
    (currentControlsInit.wellfield_on = false ∧
     currentControlsInit.ro_feed_pump_on = false ∧
     currentControlsInit.dist_pump_on = false ∧
     currentControlsInit.naoh_pump_on = false ∧
     currentControlsInit.cl_pump_on = false ∧
     currentControlsInit.valve_101_open = true ∧
     currentControlsInit.valve_201_open = true ∧
     currentControlsInit.valve_202_open = true ∧
     currentControlsInit.valve_203_open = true ∧
     currentControlsInit.valve_401_open = true) ∧
    (initialPhysicsState.level_feed_tank = 5/2 ∧
     initialPhysicsState.level_clearwell = 3 ∧
     initialPhysicsState.membrane_health = 100 ∧
     initialPhysicsState.pump_well_health = 100 ∧
     initialPhysicsState.pump_feed_health = 100 ∧
     initialPhysicsState.pump_dist_health = 100 ∧
     initialPhysicsState.pipe_well_health = 100 ∧
     initialPhysicsState.pipe_feed_health = 100 ∧
     initialPhysicsState.pipe_dist_health = 100 ∧
     initialPhysicsState.TDS_feed = 1250 ∧
     initialPhysicsState.pH_true = 36/5) ∧
    (appInitialControls.valve_101_open = false ∧
     appInitialControls.valve_201_open = false ∧
     appInitialControls.valve_202_open = false ∧
     appInitialControls.valve_203_open = false ∧
     appInitialControls.valve_401_open = false ∧
     appInitialControls.wellfield_on = false ∧
     appInitialControls.ro_feed_pump_on = false ∧
     appInitialControls.dist_pump_on = false ∧
     appInitialControls.naoh_pump_on = false ∧
     appInitialControls.cl_pump_on = false) :=
  ⟨⟨rfl, rfl, rfl, rfl, rfl, rfl, rfl, rfl, rfl, rfl⟩,
   ⟨rfl, rfl, rfl, rfl, rfl, rfl, rfl, rfl, rfl, rfl, rfl⟩,
   ⟨rfl, rfl, rfl, rfl, rfl, rfl, rfl, rfl, rfl, rfl⟩⟩
